import Mathlib

/-
Verification of the `appelpy` logistic-regression layer
(`appelpy/discrete_model.py`, class `Logit`).

The development shallowly embeds the parts of the class that the
specification talks about:

* the significance filter `Logit.significant_regressors`
  (alpha validation, the in-place `drop('const')` on the transient
  Series the statsmodels results wrapper produces on each `pvalues`
  access, the `pvalue <= alpha` filter);
* the sample aligner inside `Logit._regress`
  (`dropna` on X and y, label-set intersection, and the positional
  `iloc` selection the source performs);
* the predictor `Logit.predict`
  (regressor counting via `X_model.shape[1]`, the shape check, the
  per-regressor range masks of both the 1-d and the 2-d branch,
  `statsmodels.add_constant`, and the delegated dot-product predictor
  with IEEE-NaN propagation);
* the effect-size and residual bookkeeping of
  `Logit._regress` / `Logit._standardize_results`
  (odds ratios, Long's method for `coef_stdXy`, and
  `resid_model_standardized`).

Missing floating-point values (NaN) are modelled as `none` in
`Option ℚ` / `Option ℝ`; every numeric comparison against `none`
is `false`, and arithmetic propagates `none`, exactly the NumPy/pandas
behaviour the source relies on.  Python floats are modelled as
rationals where no transcendental function occurs, and as reals for
the odds-ratio / standardization formulas.
-/

namespace Appelpy

/-- A Python runtime value, as far as `significant_regressors` can
distinguish them with `type(alpha) is not float`. -/
inductive PyVal where
  | float (q : ℚ)
  | int (z : ℤ)
  | str (s : String)
  deriving DecidableEq, Repr

/-- The Python exception classes raised by the embedded code paths. -/
inductive PyError where
  | typeError
  | valueError
  | keyError
  | indexError
  deriving DecidableEq, Repr

/-! ## Significance filter: `Logit.significant_regressors`

`regressor_pvalues = self._results.pvalues` goes through the
statsmodels results WRAPPER, whose attribute access re-wraps the
cached p-value array into a fresh `pd.Series` on every call (wrapped
attributes are not cached on the wrapper).  The subsequent
`drop('const', inplace=True)` therefore rebinds only that transient
Series; the stored fit results are untouched.  The model state is
still threaded through the call so that this invariance is a provable
statement rather than a modelling assumption. -/

/-- The stored fit results `significant_regressors` reads: the p-value
series of the raw fit (label/value pairs; statsmodels includes the
`"const"` entry).  Each `self._results.pvalues` access hands the
method a fresh transient copy of this series. -/
structure ResultsState where
  pvalues : List (String × ℚ)
  deriving DecidableEq, Repr

/-- `pandas.Series.drop(label, inplace=True)`: removes every row with
the given label, raising `KeyError` when the label is absent. -/
def seriesDrop (label : String) (s : List (String × ℚ)) :
    Except PyError (List (String × ℚ)) :=
  if s.any (fun p => p.1 = label) then
    .ok (s.filter (fun p => p.1 ≠ label))
  else
    .error .keyError

/-- Names of the entries with p-value `≤ alpha`, in series order
(`np.where(regressor_pvalues <= alpha)` followed by `iloc`). -/
def sigList (alpha : ℚ) (pvals : List (String × ℚ)) : List String :=
  (pvals.filter (fun p => p.2 ≤ alpha)).map Prod.fst

/-- The value `significant_regressors` returns once validation has
passed: `none` models the Python `None` returned when no regressor
qualifies. -/
def significantNames (alpha : ℚ) (pvals : List (String × ℚ)) :
    Option (List String) :=
  if (sigList alpha pvals).isEmpty then none else some (sigList alpha pvals)

/-- `Logit.significant_regressors(alpha)`.  Returns the produced value
together with the model state after the call.  The in-place
`drop('const')` acts on the transient Series freshly wrapped from the
cached p-value array, so the stored state comes back unchanged (the
drop can still raise `KeyError` when the stored series has no
`"const"` entry). -/
def significantRegressors (alpha : PyVal) (s : ResultsState) :
    Except PyError (Option (List String) × ResultsState) :=
  match alpha with
  | .float q =>
      if q ≤ 0 ∨ (1 : ℚ)/10 < q then .error .valueError
      else
        match seriesDrop "const" s.pvalues with
        | .error e => .error e
        | .ok dropped => .ok (significantNames q dropped, s)
  | .int _ => .error .typeError
  | .str _ => .error .typeError

/-- The significant-name list grows with the threshold. -/
theorem sigList_mono {a1 a2 : ℚ} (h : a1 ≤ a2) (pvals : List (String × ℚ)) :
    sigList a1 pvals ⊆ sigList a2 pvals := by
  intro x hx
  simp only [sigList, List.mem_map, List.mem_filter, decide_eq_true_eq] at hx ⊢
  obtain ⟨p, ⟨hp, hle⟩, hfst⟩ := hx
  exact ⟨p, ⟨hp, le_trans hle h⟩, hfst⟩

/-- Reading the returned value as a set of names (Python `None` is the
empty set) recovers exactly the filtered name list. -/
theorem getD_significantNames (a : ℚ) (pvals : List (String × ℚ)) :
    (significantNames a pvals).getD [] = sigList a pvals := by
  unfold significantNames
  split
  · next hemp => simp_all [List.isEmpty_iff]
  · rfl

/-- C3: `significant_regressors` leaves the stored fit results
unchanged — the in-place `drop('const')` hits only the transient
Series that each `self._results.pvalues` access freshly wraps around
the cached array — so whenever a call succeeds, the post-call state
equals the pre-call state and the identical second call succeeds with
the same result (and the same unchanged state). -/
theorem C3_state_unchanged (alpha : PyVal) (s : ResultsState)
    (r : Option (List String)) (s1 : ResultsState)
    (h : significantRegressors alpha s = .ok (r, s1)) :
    s1 = s ∧ significantRegressors alpha s1 = .ok (r, s1) := by
  cases alpha with
  | int z => exact Except.noConfusion h
  | str t => exact Except.noConfusion h
  | float q =>
    simp only [significantRegressors] at h ⊢
    split at h
    · exact Except.noConfusion h
    · next hcond =>
      cases hd : seriesDrop "const" s.pvalues with
      | error e =>
          rw [hd] at h
          exact Except.noConfusion h
      | ok dropped =>
          rw [hd] at h
          simp only [Except.ok.injEq, Prod.mk.injEq] at h
          obtain ⟨hr, hs⟩ := h
          subst hs
          rw [if_neg hcond, hd]
          exact ⟨rfl, by rw [← hr]⟩

/-- C3 (witness): the concrete double call at alpha `0.05` over a
three-entry p-value series. -/
theorem C3_state_unchanged_witness :
    (⟨[("const", 1/2), ("x1", 1/100), ("x2", 2/10)]⟩ : ResultsState)
        = ⟨[("const", 1/2), ("x1", 1/100), ("x2", 2/10)]⟩ ∧
    significantRegressors (.float (1/20))
        ⟨[("const", 1/2), ("x1", 1/100), ("x2", 2/10)]⟩
      = .ok (some ["x1"],
             ⟨[("const", 1/2), ("x1", 1/100), ("x2", 2/10)]⟩) :=
  C3_state_unchanged (.float (1/20))
    ⟨[("const", 1/2), ("x1", 1/100), ("x2", 2/10)]⟩
    (some ["x1"]) ⟨[("const", 1/2), ("x1", 1/100), ("x2", 2/10)]⟩
    (by simp [significantRegressors, seriesDrop, significantNames, sigList]
        norm_num)

/-- C4 (counterexample): the claim predicts a value error for
`alpha = 0`, but the source checks `type(alpha) is not float` first, so
the integer `0` raises a type error (the repository's own test suite
expects exactly this). -/
theorem C4_counterexample :
    significantRegressors (.int 0) ⟨[("const", 1/2), ("x1", 1/100)]⟩
      = .error .typeError ∧
    PyError.typeError ≠ PyError.valueError :=
  ⟨rfl, by decide⟩

/-- C4 (amended): every non-float alpha (strings, but also integers
such as `0` and `-1`) raises a type error; every float alpha outside
`(0, 0.1]` raises a value error; every float alpha inside the interval
passes validation and the call succeeds (alpha is never clamped). -/
theorem C4_alpha_validation :
    (∀ (t : String) (s : ResultsState),
        significantRegressors (.str t) s = .error .typeError) ∧
    (∀ (z : ℤ) (s : ResultsState),
        significantRegressors (.int z) s = .error .typeError) ∧
    (∀ (q : ℚ) (s : ResultsState), q ≤ 0 ∨ (1 : ℚ)/10 < q →
        significantRegressors (.float q) s = .error .valueError) ∧
    (∀ (q : ℚ) (s : ResultsState), 0 < q → q ≤ (1 : ℚ)/10 →
        "const" ∈ s.pvalues.map Prod.fst →
        significantRegressors (.float q) s
          = .ok (significantNames q (s.pvalues.filter (fun p => p.1 ≠ "const")),
                 s)) := by
  refine ⟨fun t s => rfl, fun z s => rfl, ?_, ?_⟩
  · intro q s h
    simp only [significantRegressors, if_pos h]
  · intro q s hpos hle hconst
    have hcond : ¬(q ≤ 0 ∨ (1 : ℚ)/10 < q) := by
      push_neg
      exact ⟨hpos, hle⟩
    have hdrop : seriesDrop "const" s.pvalues
        = .ok (s.pvalues.filter (fun p => p.1 ≠ "const")) := by
      unfold seriesDrop
      rw [if_pos]
      simp only [List.any_eq_true, decide_eq_true_eq]
      obtain ⟨p, hp, hfst⟩ := List.mem_map.mp hconst
      exact ⟨p, hp, hfst⟩
    simp only [significantRegressors, if_neg hcond, hdrop]

/-- C4 (witness): the amended validation behaviour at the concrete
inputs of the repository's test suite. -/
theorem C4_alpha_validation_witness :
    significantRegressors (.str "bad") ⟨[("const", 1/2), ("x1", 1/100)]⟩
      = .error .typeError ∧
    significantRegressors (.int (-1)) ⟨[("const", 1/2), ("x1", 1/100)]⟩
      = .error .typeError ∧
    significantRegressors (.float (11/100)) ⟨[("const", 1/2), ("x1", 1/100)]⟩
      = .error .valueError ∧
    significantRegressors (.float (1/20)) ⟨[("const", 1/2), ("x1", 1/100)]⟩
      = .ok (significantNames (1/20)
               ([(("const" : String), (1 : ℚ)/2), ("x1", 1/100)].filter
                  (fun p => p.1 ≠ "const")),
             ⟨[("const", 1/2), ("x1", 1/100)]⟩) :=
  ⟨C4_alpha_validation.1 "bad" _,
   C4_alpha_validation.2.1 (-1) _,
   C4_alpha_validation.2.2.1 (11/100) _ (Or.inr (by norm_num)),
   C4_alpha_validation.2.2.2 (1/20) _ (by norm_num) (by norm_num) (by simp)⟩

/-- C6: for a fitted model and valid significance levels
`a1 < a2`, the regressor-name set returned by
`significant_regressors(a1)` is contained in the one returned by
`significant_regressors(a2)` (both calls read the same model state;
`None` is the empty set). -/
theorem C6_significant_regressors_monotone
    (a1 a2 : ℚ) (s : ResultsState) (r1 r2 : Option (List String))
    (s1 s2 : ResultsState)
    (hlt : a1 < a2)
    (h1 : significantRegressors (.float a1) s = .ok (r1, s1))
    (h2 : significantRegressors (.float a2) s = .ok (r2, s2)) :
    r1.getD [] ⊆ r2.getD [] := by
  simp only [significantRegressors] at h1 h2
  split at h1
  · exact Except.noConfusion h1
  · split at h2
    · exact Except.noConfusion h2
    · cases hd : seriesDrop "const" s.pvalues with
      | error e =>
          rw [hd] at h1
          exact Except.noConfusion h1
      | ok dropped =>
          rw [hd] at h1 h2
          simp only [Except.ok.injEq, Prod.mk.injEq] at h1 h2
          rw [← h1.1, ← h2.1, getD_significantNames, getD_significantNames]
          exact sigList_mono (le_of_lt hlt) dropped

/-- C6 (witness): monotonicity at concrete alphas `0.02 < 0.06` over a
concrete p-value series. -/
theorem C6_significant_regressors_monotone_witness :
    (some ["x1"] : Option (List String)).getD []
      ⊆ (some ["x1", "x2"] : Option (List String)).getD [] :=
  C6_significant_regressors_monotone (1/50) (3/50)
    ⟨[("const", 1/2), ("x1", 1/100), ("x2", 1/20)]⟩
    (some ["x1"]) (some ["x1", "x2"])
    ⟨[("const", 1/2), ("x1", 1/100), ("x2", 1/20)]⟩
    ⟨[("const", 1/2), ("x1", 1/100), ("x2", 1/20)]⟩
    (by norm_num)
    (by simp [significantRegressors, seriesDrop, significantNames, sigList]
        norm_num)
    (by simp [significantRegressors, seriesDrop, significantNames, sigList]
        norm_num)

/-! ## Sample aligner: the start of `Logit._regress`

`indices = list(set(X_notna.index).intersection(set(y_notna.index)))`
collects index LABELS, but the rows are then taken with
`self._X.iloc[indices]` / `self._y.iloc[indices]`, i.e. by POSITION. -/

/-- One row of the modelling dataframe: its index label, the dependent
value and the regressor values (`none` is a missing value). -/
structure DataRow where
  label : ℕ
  yval : Option ℚ
  xvals : List (Option ℚ)
  deriving DecidableEq, Repr

/-- `DataFrame.iloc[indices]`: positional selection, raising
`IndexError` for an out-of-bounds position. -/
def ilocSelect (df : List DataRow) (indices : List ℕ) :
    Except PyError (List DataRow) :=
  indices.mapM (fun i =>
    match df[i]? with
    | some r => .ok r
    | none => .error .indexError)

/-- The alignment step of `Logit._regress`: drop the rows of X with any
missing regressor value and the rows of y with a missing dependent
value, intersect the two surviving label sets, and select rows with
`iloc`, passing the labels as positions exactly as the source does.
(The Python `set` intersection has no fixed order; it is modelled as a
filter, which fixes one order of the same label set.) -/
def alignSample (df : List DataRow) : Except PyError (List DataRow) :=
  let xOk := (df.filter (fun r => r.xvals.all Option.isSome)).map DataRow.label
  let yOk := (df.filter (fun r => r.yval.isSome)).map DataRow.label
  let indices := xOk.filter (fun l => l ∈ yOk)
  ilocSelect df indices

/-- C2: the aligned sample is NOT missing-value-free for every input
dataset.  With the reversed (non-`0..n-1`) index `[1, 0]` and the
dependent value missing exactly at label `0`, the label set `{1}` is
used as a position set, so the surviving row is the one WITH the
missing dependent value; and with labels at or beyond the row count
(index `[5]`) the selection raises `IndexError`. -/
theorem C2_alignment_positional_bug :
    alignSample [⟨1, some 1, [some 1]⟩, ⟨0, none, [some 2]⟩]
      = .ok [⟨0, none, [some 2]⟩] ∧
    (⟨0, none, [some 2]⟩ : DataRow).yval = none ∧
    alignSample [⟨5, some 1, [some 1]⟩] = .error .indexError :=
  ⟨rfl, rfl, rfl⟩

/-! ## Predictor: `Logit.predict`

The prediction input is a NumPy array after the `to_numpy()`
conversion.  A prediction value is carried as its linear predictor
`dot(row_with_const, params)` in `Option ℚ`: the delegated solver
applies the logistic link pointwise, and the link is a total function
onto (0, 1), so a returned probability is NaN exactly when the linear
predictor is NaN (`none`). -/

/-- The NumPy array handed to `predict`: 1-dimensional (one
observation) or 2-dimensional (examples × regressors). -/
inductive NDArray where
  | one (vals : List (Option ℚ))
  | two (rows : List (List (Option ℚ)))
  deriving Repr

/-- NumPy `np.less_equal` on possibly-NaN scalars: a comparison with
NaN is `False` (inside `np.errstate(invalid='ignore')` the warning is
suppressed, not the result). -/
def optLE (a b : Option ℚ) : Bool :=
  match a, b with
  | some x, some y => decide (x ≤ y)
  | _, _ => false

/-- NumPy `np.greater_equal` on possibly-NaN scalars. -/
def optGE (a b : Option ℚ) : Bool :=
  match a, b with
  | some x, some y => decide (y ≤ x)
  | _, _ => false

/-- Column minimum as pandas computes it (`skipna=True`): NaN entries
are ignored; an all-NaN column has no minimum (NaN). -/
def colMin (col : List (Option ℚ)) : Option ℚ :=
  (col.filterMap id).foldr
    (fun x acc => match acc with | none => some x | some y => some (min x y))
    none

/-- Column maximum, `skipna=True`. -/
def colMax (col : List (Option ℚ)) : Option ℚ :=
  (col.filterMap id).foldr
    (fun x acc => match acc with | none => some x | some y => some (max x y))
    none

/-- The fitted state `Logit.predict` reads. -/
structure LogitModel where
  /-- parameters of the raw fit: the constant first, then one
  coefficient per regressor (the order `sm.add_constant` produces). -/
  params : List ℚ
  /-- `true` when the model was built from a single-regressor list, in
  which case `self._X_model` is a pandas Series (1-dimensional). -/
  isSeries : Bool
  /-- the training columns of `X_model`, in regressor order. -/
  cols : List (List (Option ℚ))
  deriving Repr

/-- `regressors_count = self._X_model.shape[1]`: a Series has shape
`(n,)`, so the column-count lookup raises `IndexError` for a
single-regressor model. -/
def regressorsCount (m : LogitModel) : Except PyError ℕ :=
  if m.isSeries then .error .indexError else .ok m.cols.length

/-- NaN-propagating dot product of an exog row with the parameter
vector (parameters of a converged fit are finite). -/
def dotNaN : List (Option ℚ) → List ℚ → Option ℚ
  | [], [] => some 0
  | some x :: xs, p :: ps => (dotNaN xs ps).map (fun s => x * p + s)
  | none :: _, _ :: _ => none
  | _, _ => none

/-- One row of the delegated `self._results.predict(exog=...)`: NumPy
raises on a dot-product shape mismatch, otherwise the probability is
`logistic(dot(row, params))`, represented by its linear predictor. -/
def solverPredictRow (params : List ℚ) (row : List (Option ℚ)) :
    Except PyError (Option ℚ) :=
  if row.length = params.length then .ok (dotNaN row params)
  else .error .valueError

/-- Effectful map over a list that stops at the first raised error. -/
def tryMap {α β : Type} (f : α → Except PyError β) :
    List α → Except PyError (List β)
  | [] => .ok []
  | a :: as =>
    match f a with
    | .error e => .error e
    | .ok b =>
      match tryMap f as with
      | .error e => .error e
      | .ok bs => .ok (b :: bs)

/-- `np.ptp(col) == 0 and np.all(col != 0)`: the column is a nonzero
constant.  A NaN entry makes `ptp` NaN, hence not a constant column. -/
def colNonzeroConst (col : List (Option ℚ)) : Bool :=
  match col with
  | [] => false
  | none :: _ => false
  | some q :: rest => rest.all (· == some q) && !(q == 0)

/-- `statsmodels.add_constant` on a 1-d array: the array is treated as
ONE COLUMN of observations; a column of ones is prepended unless that
single column is already a nonzero constant (`has_constant='skip'` is
the default). -/
def addConstantOne (v : List (Option ℚ)) : List (List (Option ℚ)) :=
  let colRows := v.map (fun x => [x])
  if colNonzeroConst v then colRows
  else colRows.map (fun r => some 1 :: r)

/-- Prepend each entry of a row to the corresponding accumulated
column (helper for the structural transpose below). -/
def zipConsAll : List (Option ℚ) → List (List (Option ℚ)) → List (List (Option ℚ))
  | [], _ => []
  | x :: xs, [] => [x] :: zipConsAll xs []
  | x :: xs, c :: cs => (x :: c) :: zipConsAll xs cs

/-- Columns of a rectangular 2-d array (row-major to column-major). -/
def listTranspose : List (List (Option ℚ)) → List (List (Option ℚ))
  | [] => []
  | r :: rs => zipConsAll r (listTranspose rs)

/-- `statsmodels.add_constant` on a 2-d array: prepend a column of
ones, unless some column already is a nonzero constant. -/
def addConstantTwo (rows : List (List (Option ℚ))) :
    List (List (Option ℚ)) :=
  if (listTranspose rows).any colNonzeroConst then rows
  else rows.map (fun r => some 1 :: r)

/-- Range mask of the 1-d `within_sample` branch:
`(X_model.min() <= X_predict) & (X_predict <= X_model.max())`,
then `.all(axis=0)`. -/
def rowInRangeSingle (m : LogitModel) (v : List (Option ℚ)) : Bool :=
  (m.cols.zip v).all (fun cv =>
    optLE (colMin cv.1) cv.2 && optLE cv.2 (colMax cv.1))

/-- Range mask of the batch branch, exactly as the source computes it:
`vals_in_range_min = np.less_equal(np.tile(X_model.min(), ...), X)` and
`vals_in_range_max = np.greater_equal(X, np.tile(X_model.min(), ...))`
— the second comparison is against `.min()` as well, so the training
maximum is never consulted. -/
def rowInRangeBatch (m : LogitModel) (row : List (Option ℚ)) : Bool :=
  (m.cols.zip row).all (fun cv =>
    let valsInRangeMin := optLE (colMin cv.1) cv.2
    let valsInRangeMax := optGE cv.2 (colMin cv.1)
    valsInRangeMin && valsInRangeMax)

/-- The `within_sample and X_predict.ndim == 1` branch of
`Logit.predict`: scalar range mask, constant inserted with
`np.insert(X_predict, 0, 1)`, prediction masked by the scalar
`np.where`. -/
def predictOneTrue (m : LogitModel) (v : List (Option ℚ)) :
    Except PyError (List (Option ℚ)) :=
  match solverPredictRow m.params (some 1 :: v) with
  | .error e => .error e
  | .ok pred => .ok [if rowInRangeSingle m v then pred else none]

/-- The batch-style branch of `Logit.predict` reached by a 1-d input
with `within_sample=False`: `sm.add_constant` reshapes the observation
into a column of examples before the delegated prediction (the
computed range mask is dead in this branch, since no masking is
applied). -/
def predictOneFalse (m : LogitModel) (v : List (Option ℚ)) :
    Except PyError (List (Option ℚ)) :=
  tryMap (solverPredictRow m.params) (addConstantOne v)

/-- The batch branch of `Logit.predict`: per-example range mask,
`sm.add_constant`, delegated prediction, and the
`np.where(all_vals_in_range, preds, NaN)` mask when `within_sample`
holds. -/
def predictTwo (m : LogitModel) (rows : List (List (Option ℚ)))
    (withinSample : Bool) : Except PyError (List (Option ℚ)) :=
  let mask := rows.map (rowInRangeBatch m)
  match tryMap (solverPredictRow m.params) (addConstantTwo rows) with
  | .error e => .error e
  | .ok preds =>
    if withinSample then
      .ok ((mask.zip preds).map (fun mp => if mp.1 then mp.2 else none))
    else .ok preds

/-- `Logit.predict(X_predict, within_sample)`: count the fitted
regressors via `X_model.shape[1]`, read the detected regressor count
off the input's shape, fail the shape check with `ValueError`, and
dispatch to the branch the source selects with
`if within_sample and X_predict.ndim == 1`. -/
def predict (m : LogitModel) (Xp : NDArray) (withinSample : Bool) :
    Except PyError (List (Option ℚ)) :=
  match regressorsCount m with
  | .error e => .error e
  | .ok count =>
    match Xp with
    | .one v =>
      if v.length ≠ count then .error .valueError
      else if withinSample then predictOneTrue m v
      else predictOneFalse m v
    | .two rows =>
      if (rows.headD []).length ≠ count then .error .valueError
      else predictTwo m rows withinSample

/-- A model fitted from a single-regressor list: `self._X_model` is a
pandas Series. -/
def mSeries : LogitModel :=
  { params := [0, 1], isSeries := true, cols := [[some 0, some 1]] }

/-- A model fitted on two regressors, each with training range
`[0, 1]`, with parameters `(const, x1, x2) = (0, 1, 1)`. -/
def mFrame : LogitModel :=
  { params := [0, 1, 1], isSeries := false
  , cols := [[some 0, some 1], [some 0, some 1]] }

/-- C5: for a model fitted with exactly one regressor, `predict` raises
`IndexError` from `self._X_model.shape[1]` before any shape comparison
— both for a matching single-regressor input and for a mismatching
batch; the claimed iff only holds for models whose `X_model` is
2-dimensional, where a mismatching count raises the shape `ValueError`
and a matching count proceeds to a prediction. -/
theorem C5_single_regressor_crash :
    predict mSeries (.one [some 2]) true = .error .indexError ∧
    predict mSeries (.two [[some 2], [some 3]]) true = .error .indexError ∧
    predict mFrame (.one [some 1]) true = .error .valueError ∧
    predict mFrame (.one [some 1, some 1]) true = .ok [some 2] := by
  refine ⟨rfl, rfl, rfl, ?_⟩
  simp [predict, predictOneTrue, regressorsCount, rowInRangeSingle, optLE,
        colMin, colMax, solverPredictRow, dotNaN, mFrame]
  norm_num

/-- C9: a NaN regressor value does not always propagate to a NaN
prediction without an exception: a single-regressor model raises
`IndexError` for any input, and a 1-d observation with
`within_sample=False` reaches `sm.add_constant`, which reshapes the
observation into a column of examples, so the delegated dot product
raises a shape error.  In the 2-d batch branch the NaN example does
come back as NaN under both settings, as claimed. -/
theorem C9_nan_crash :
    predict mSeries (.one [none]) true = .error .indexError ∧
    predict mFrame (.one [none, some 1]) false = .error .valueError ∧
    predict mFrame (.two [[none, some 1], [some 1, some (1/2)]]) true
      = .ok [none, some (3/2)] ∧
    predict mFrame (.two [[none, some 1], [some 1, some (1/2)]]) false
      = .ok [none, some (3/2)] := by
  refine ⟨rfl, ?_, ?_, ?_⟩
  · simp [predict, predictOneFalse, regressorsCount, addConstantOne,
          colNonzeroConst, solverPredictRow, tryMap, mFrame]
  · simp [predict, predictTwo, regressorsCount, rowInRangeBatch, optLE, optGE,
          colMin, addConstantTwo, colNonzeroConst, solverPredictRow, dotNaN,
          tryMap, mFrame, listTranspose, zipConsAll]
    norm_num
  · simp [predict, predictTwo, regressorsCount, rowInRangeBatch, optLE, optGE,
          colMin, addConstantTwo, colNonzeroConst, solverPredictRow, dotNaN,
          tryMap, mFrame, listTranspose, zipConsAll]
    norm_num

/-- C1: in the batch branch a regressor value strictly above the
training maximum is NOT masked to NaN: the first training column has
maximum `1`, the first example carries `5` for it, yet the prediction
comes back finite (`some`), because the upper-bound comparison is made
against the training minimum.  The 1-d branch of the same model masks
the same observation to NaN, as the claim demands. -/
theorem C1_batch_above_max_not_nan :
    colMax (mFrame.cols.headD []) = some 1 ∧
    predict mFrame (.one [some 5, some 0]) true = .ok [none] ∧
    predict mFrame (.two [[some 5, some 0], [some (1/2), some (1/2)]]) true
      = .ok [some 5, some 1] := by
  refine ⟨rfl, ?_, ?_⟩
  · simp [predict, predictOneTrue, regressorsCount, rowInRangeSingle, optLE,
          colMin, colMax, solverPredictRow, dotNaN, mFrame]
  · simp [predict, predictTwo, regressorsCount, rowInRangeBatch, optLE, optGE,
          colMin, addConstantTwo, colNonzeroConst, solverPredictRow, dotNaN,
          tryMap, mFrame, listTranspose, zipConsAll]
    norm_num [tryMap, solverPredictRow, dotNaN]

/-! ## Odds ratios, Long's method, residuals
(`Logit._regress` lines 226-227, `Logit._standardize_results`)

These are real-number formulas (exp, sqrt, π), so this part of the
embedding works in `ℝ`. -/

/-- Arithmetic mean of a sample (pandas `mean`). -/
noncomputable def sampleMean (xs : List ℝ) : ℝ := xs.sum / xs.length

/-- Sample variance with Bessel's correction (the pandas default
`ddof=1`). -/
noncomputable def sampleVar (xs : List ℝ) : ℝ :=
  (xs.map (fun x => (x - sampleMean xs) ^ 2)).sum / ((xs.length : ℝ) - 1)

/-- Sample standard deviation (pandas `std`). -/
noncomputable def sampleStd (xs : List ℝ) : ℝ := Real.sqrt (sampleVar xs)

/-- The sample variance is nonnegative (it is a sum of squares over a
nonnegative denominator; degenerate lengths give `0` by the division
convention). -/
theorem sampleVar_nonneg (xs : List ℝ) : 0 ≤ sampleVar xs := by
  have hnum : 0 ≤ (xs.map (fun x => (x - sampleMean xs) ^ 2)).sum := by
    apply List.sum_nonneg
    intro y hy
    obtain ⟨x, hx, rfl⟩ := List.mem_map.mp hy
    exact sq_nonneg _
  cases xs with
  | nil => simp [sampleVar]
  | cons a l =>
    apply div_nonneg hnum
    have h1 : (1 : ℝ) ≤ ((a :: l).length : ℝ) := by
      exact_mod_cast Nat.succ_le_of_lt (Nat.pos_of_ne_zero (by simp))
    linarith

/-- The delegated-solver outputs and the aligned sample that
`_regress` / `_standardize_results` combine: label/value series of the
raw fit and of the standardized fit, the raw fit's fitted
linear-predictor values and Pearson residuals, the standardized fit's
Pearson residuals, the aligned training columns and the aligned row
index. -/
structure LogitFit where
  rawParams : List (String × ℝ)
  rawTvalues : List (String × ℝ)
  rawPvalues : List (String × ℝ)
  rawFittedvalues : List ℝ
  rawResidPearson : List ℝ
  stdParams : List (String × ℝ)
  stdResidPearson : List ℝ
  XModelCols : List (String × List ℝ)
  yModelIndex : List ℕ

/-- `var_ystar = self._results.fittedvalues.std() ** 2 + np.pi ** 2 / 3`
— Long's latent-variable variance, exactly as the source computes it
(standard deviation squared). -/
noncomputable def varYstar (f : LogitFit) : ℝ :=
  sampleStd f.rawFittedvalues ^ 2 + Real.pi ^ 2 / 3

/-- One row of the `results_output_standardized` table (the numeric
columns; the styling layer is typography only).  A `none` entry is the
NaN pandas leaves when label alignment finds no value. -/
structure StdRow where
  coef : Option ℝ
  tvalue : Option ℝ
  pvalue : Option ℝ
  coefStdX : Option ℝ
  coefStdXy : Option ℝ
  stdevX : Option ℝ

/-- The `std_results_output` table built by `_standardize_results`:
rows are indexed by the standardized fit's parameter labels without
`'const'`; each column assignment aligns by label (pandas semantics),
and `coef_stdXy = (coef * stdev_X) / np.sqrt(var_ystar)` with the
`stdev_X` series `self._X_model.std()`. -/
noncomputable def stdResultsOutput (f : LogitFit) : List (String × StdRow) :=
  (f.stdParams.filter (fun p => p.1 ≠ "const")).map (fun p =>
    (p.1,
     { coef := f.rawParams.lookup p.1
     , tvalue := f.rawTvalues.lookup p.1
     , pvalue := f.rawPvalues.lookup p.1
     , coefStdX := f.stdParams.lookup p.1
     , coefStdXy :=
         match f.rawParams.lookup p.1,
               (f.XModelCols.lookup p.1).map sampleStd with
         | some c, some s => some (c * s / Real.sqrt (varYstar f))
         | _, _ => none
     , stdevX := (f.XModelCols.lookup p.1).map sampleStd }))

/-- Looking a key up in a list whose entries keep their first
components exposes the originating pair. -/
theorem lookup_map_fst {β γ : Type} (g : String × β → γ) (a : String)
    (r : γ) (l : List (String × β))
    (h : (l.map (fun p => (p.1, g p))).lookup a = some r) :
    ∃ p, p ∈ l ∧ p.1 = a ∧ r = g p := by
  induction l with
  | nil => simp [List.lookup] at h
  | cons q t ih =>
    by_cases heq : a = q.1
    · refine ⟨q, List.mem_cons_self q t, heq.symm, ?_⟩
      rw [List.map_cons] at h
      simp [List.lookup, heq] at h
      exact h.symm
    · rw [List.map_cons] at h
      have hbeq : (a == q.1) = false := beq_eq_false_iff_ne.mpr heq
      simp [List.lookup, hbeq] at h
      obtain ⟨p, hp, hfst, hr⟩ := ih h
      exact ⟨p, List.mem_cons_of_mem q hp, hfst, hr⟩

/-- C7: in every row of the standardized-results table, the stored
fully standardized coefficient equals the raw coefficient times the
regressor's sample standard deviation, divided by the square root of
(the sample variance of the raw fit's fitted linear-predictor values
plus π²/3) — the spec-side statement of Long's method, with the
variance written as a variance rather than the source's squared
standard deviation. -/
theorem C7_coef_stdXy_long (f : LogitFit) (name : String) (row : StdRow)
    (hrow : (stdResultsOutput f).lookup name = some row)
    (c : ℝ) (hc : row.coef = some c)
    (s : ℝ) (hs : row.stdevX = some s) :
    row.coefStdXy
      = some (c * s
          / Real.sqrt (sampleVar f.rawFittedvalues + Real.pi ^ 2 / 3)) := by
  obtain ⟨p, hp, hfst, hr⟩ := lookup_map_fst _ name row _ hrow
  subst hr
  simp only at hc hs
  have hvar : varYstar f = sampleVar f.rawFittedvalues + Real.pi ^ 2 / 3 := by
    unfold varYstar sampleStd
    rw [Real.sq_sqrt (sampleVar_nonneg f.rawFittedvalues)]
  simp only [hc, hs, hvar]

/-- Concrete fit data for the C7 witness: one regressor `x1` with raw
coefficient `2`, training column `[1, 3]`, fitted linear predictors
`[1, 3]`. -/
noncomputable def fLong : LogitFit :=
  { rawParams := [("const", 1), ("x1", 2)]
  , rawTvalues := [("const", 1), ("x1", 4)]
  , rawPvalues := [("const", 1/2), ("x1", 1/100)]
  , rawFittedvalues := [1, 3]
  , rawResidPearson := [1, -1]
  , stdParams := [("const", 0), ("x1", 3)]
  , stdResidPearson := [0, 0]
  , XModelCols := [("x1", [1, 3])]
  , yModelIndex := [0, 1] }

/-- The table row `stdResultsOutput` produces for `x1` of `fLong`. -/
noncomputable def rowLong : StdRow :=
  { coef := some 2
  , tvalue := some 4
  , pvalue := some (1/100)
  , coefStdX := some 3
  , coefStdXy := some (2 * sampleStd [1, 3] / Real.sqrt (varYstar fLong))
  , stdevX := some (sampleStd [1, 3]) }

/-- C7 (witness): Long's formula instantiated on the concrete fit. -/
theorem C7_coef_stdXy_long_witness :
    rowLong.coefStdXy
      = some (2 * sampleStd [1, 3]
          / Real.sqrt (sampleVar ([1, 3] : List ℝ) + Real.pi ^ 2 / 3)) :=
  C7_coef_stdXy_long fLong "x1" rowLong rfl 2 rfl (sampleStd [1, 3]) rfl

/-- `self._odds_ratios =
pd.Series(np.exp(self._results.params.drop('const')))`: exponentiate
each non-constant raw coefficient, keeping the regressor labels. -/
noncomputable def oddsRatios (params : List (String × ℝ)) :
    List (String × ℝ) :=
  (params.filter (fun p => p.1 ≠ "const")).map (fun p => (p.1, Real.exp p.2))

/-- C8: every odds-ratio entry is `exp` of the raw coefficient stored
under the same regressor name, its log recovers that coefficient, the
constant has no entry, and every non-constant coefficient contributes
an entry labelled by its name. -/
theorem C8_odds_ratios_exp (params : List (String × ℝ)) :
    (∀ name v, (name, v) ∈ oddsRatios params →
       name ≠ "const" ∧
       ∃ c, (name, c) ∈ params ∧ v = Real.exp c ∧ Real.log v = c) ∧
    (∀ v, ("const", v) ∉ oddsRatios params) ∧
    (∀ name c, (name, c) ∈ params → name ≠ "const" →
       (name, Real.exp c) ∈ oddsRatios params) := by
  refine ⟨?_, ?_, ?_⟩
  · intro name v h
    simp only [oddsRatios, List.mem_map, List.mem_filter,
               decide_eq_true_eq, Prod.mk.injEq] at h
    obtain ⟨p, ⟨hp, hne⟩, hfst, hsnd⟩ := h
    subst hfst
    refine ⟨hne, p.2, ?_, hsnd.symm, by rw [← hsnd, Real.log_exp]⟩
    exact hp
  · intro v h
    simp only [oddsRatios, List.mem_map, List.mem_filter,
               decide_eq_true_eq, Prod.mk.injEq] at h
    obtain ⟨p, ⟨hp, hne⟩, hfst, hsnd⟩ := h
    exact hne hfst
  · intro name c hmem hne
    simp only [oddsRatios, List.mem_map, List.mem_filter, decide_eq_true_eq]
    exact ⟨(name, c), ⟨hmem, hne⟩, rfl⟩

/-- C8 (witness): the odds ratio for the coefficient `2` of `x1` is
`exp 2`, and the constant contributes no entry. -/
theorem C8_odds_ratios_exp_witness :
    ("x1", Real.exp 2) ∈ oddsRatios [("const", 1), ("x1", 2)] ∧
    (∀ v, ("const", v) ∉ oddsRatios [("const", 1), ("x1", 2)]) :=
  ⟨(C8_odds_ratios_exp [("const", 1), ("x1", 2)]).2.2 "x1" 2 (by simp)
      (by decide),
   (C8_odds_ratios_exp [("const", 1), ("x1", 2)]).2.1⟩

/-- `self._resid_model_standardized =
pd.Series(self._results.resid_pearson, index=self._y_model.index)`:
the RAW fit's Pearson residuals laid over the aligned sample's index.
The standardized fit's residuals are not consulted. -/
def residModelStandardized (f : LogitFit) : List (ℕ × ℝ) :=
  f.yModelIndex.zip f.rawResidPearson

/-- C10: the exposed standardized-residual series carries exactly the
raw fit's Pearson residual values over the aligned sample's index, and
is invariant under any change of the standardized fit's residuals. -/
theorem C10_resid_from_raw_fit (f g : LogitFit)
    (hlen : f.yModelIndex.length = f.rawResidPearson.length)
    (hr : f.rawResidPearson = g.rawResidPearson)
    (hi : f.yModelIndex = g.yModelIndex) :
    (residModelStandardized f).map Prod.fst = f.yModelIndex ∧
    (residModelStandardized f).map Prod.snd = f.rawResidPearson ∧
    residModelStandardized f = residModelStandardized g := by
  refine ⟨?_, ?_, ?_⟩
  · exact List.map_fst_zip _ _ (le_of_eq hlen)
  · exact List.map_snd_zip _ _ (le_of_eq hlen.symm)
  · unfold residModelStandardized
    rw [hr, hi]

/-- Fit data for the C10 witness (non-contiguous aligned index). -/
noncomputable def fResid : LogitFit :=
  { fLong with
      yModelIndex := [3, 7]
      rawResidPearson := [1, -2]
      stdResidPearson := [0, 0] }

/-- The same fit with different standardized-fit residuals. -/
noncomputable def gResid : LogitFit :=
  { fResid with stdResidPearson := [5, 6] }

/-- C10 (witness): the residual series of the concrete fit. -/
theorem C10_resid_from_raw_fit_witness :
    (residModelStandardized fResid).map Prod.fst = [3, 7] ∧
    (residModelStandardized fResid).map Prod.snd = fResid.rawResidPearson ∧
    residModelStandardized fResid = residModelStandardized gResid :=
  C10_resid_from_raw_fit fResid gResid rfl rfl rfl

end Appelpy
